import Mathlib

/-
  Verification development for the boid flocking simulation.

  The simulation is embedded shallowly: THREE.Vector3 becomes the `Vec3`
  structure over the exact reals, each TypeScript method becomes a Lean
  function transcribed from the source, randomness (Math.random samples)
  is passed in explicitly as function arguments, and the simulation loop
  becomes a step function on an explicit `SimState` record.
-/

set_option maxHeartbeats 1000000

open scoped Classical

noncomputable section

/-- Vec3 mirrors THREE.Vector3: three real components.  The real numbers
stand in for IEEE doubles; divisions by zero are flagged where the source
can perform them. -/
structure Vec3 where
  x : ℝ
  y : ℝ
  z : ℝ

namespace Vec3

/-- The zero vector, `new THREE.Vector3()`. -/
def zero : Vec3 := ⟨0, 0, 0⟩

/-- Componentwise addition, `Vector3.add`. -/
def add (a b : Vec3) : Vec3 := ⟨a.x + b.x, a.y + b.y, a.z + b.z⟩

/-- Componentwise subtraction, `Vector3.subVectors` / `Vector3.sub`. -/
def sub (a b : Vec3) : Vec3 := ⟨a.x - b.x, a.y - b.y, a.z - b.z⟩

/-- Scalar multiplication, `Vector3.multiplyScalar`. -/
def multiplyScalar (s : ℝ) (v : Vec3) : Vec3 := ⟨s * v.x, s * v.y, s * v.z⟩

/-- Transcribes `Vector3.divideScalar(s)` is `multiplyScalar(1/s)` in THREE.  In
JavaScript `1/0` is `Infinity`; in this real-valued model `1/0 = 0`.
Every guarded call site divides by a provably nonzero scalar; the one
unguarded call site (CohesionRule) is flagged as a code bug below. -/
def divideScalar (s : ℝ) (v : Vec3) : Vec3 := v.multiplyScalar (1 / s)

/-- Transcribes `Vector3.addScaledVector(v, s)`. -/
def addScaledVector (a v : Vec3) (s : ℝ) : Vec3 := a.add (v.multiplyScalar s)

/-- Euclidean length, `Vector3.length()`. -/
def length (v : Vec3) : ℝ := Real.sqrt (v.x ^ 2 + v.y ^ 2 + v.z ^ 2)

/-- Transcribes `Vector3.normalize()` is `divideScalar(length() || 1)` in THREE: a
zero-length vector is divided by 1 (and so stays zero). -/
def normalize (v : Vec3) : Vec3 :=
  v.divideScalar (if v.length = 0 then 1 else v.length)

/-- Transcribes `Vector3.setLength(l)` is `normalize().multiplyScalar(l)`. -/
def setLength (l : ℝ) (v : Vec3) : Vec3 := v.normalize.multiplyScalar l

/-- Transcribes `Vector3.distanceTo(b)`. -/
def distanceTo (a b : Vec3) : ℝ := (a.sub b).length

theorem length_nonneg (v : Vec3) : 0 ≤ v.length := Real.sqrt_nonneg _

theorem length_zero : (zero).length = 0 := by
  simp [length, zero]

theorem zero_add_vec (v : Vec3) : zero.add v = v := by
  simp [add, zero]

theorem length_multiplyScalar (s : ℝ) (v : Vec3) :
    (v.multiplyScalar s).length = |s| * v.length := by
  unfold length multiplyScalar
  rw [show (s * v.x) ^ 2 + (s * v.y) ^ 2 + (s * v.z) ^ 2
        = s ^ 2 * (v.x ^ 2 + v.y ^ 2 + v.z ^ 2) by ring,
      Real.sqrt_mul (sq_nonneg s), Real.sqrt_sq_eq_abs]

theorem length_mk_x (a : ℝ) : (Vec3.mk a 0 0).length = |a| := by
  unfold length
  norm_num [Real.sqrt_sq_eq_abs]

theorem length_mk_x_nonneg (a : ℝ) (h : 0 ≤ a) : (Vec3.mk a 0 0).length = a := by
  rw [length_mk_x, abs_of_nonneg h]

theorem length_pos_of_ne_zero {v : Vec3} (h : v.length ≠ 0) : 0 < v.length :=
  lt_of_le_of_ne (length_nonneg v) (Ne.symm h)

theorem normalize_length {v : Vec3} (h : v.length ≠ 0) :
    v.normalize.length = 1 := by
  have hpos : 0 < v.length := length_pos_of_ne_zero h
  unfold normalize divideScalar
  rw [if_neg h, length_multiplyScalar,
      abs_of_pos (show (0:ℝ) < 1 / v.length by positivity)]
  field_simp

theorem setLength_length {v : Vec3} (l : ℝ) (hv : v.length ≠ 0) (hl : 0 ≤ l) :
    (v.setLength l).length = l := by
  unfold setLength
  rw [length_multiplyScalar, normalize_length hv, mul_one, abs_of_nonneg hl]

/-- Triangle inequality for the transcribed Euclidean length, proved from
the Lagrange identity form of Cauchy–Schwarz. -/
theorem length_add_le (a b : Vec3) :
    (a.add b).length ≤ a.length + b.length := by
  have hA : (0:ℝ) ≤ a.x ^ 2 + a.y ^ 2 + a.z ^ 2 := by positivity
  have hB : (0:ℝ) ≤ b.x ^ 2 + b.y ^ 2 + b.z ^ 2 := by positivity
  have hD2 : (a.x * b.x + a.y * b.y + a.z * b.z) ^ 2
      ≤ (a.x ^ 2 + a.y ^ 2 + a.z ^ 2) * (b.x ^ 2 + b.y ^ 2 + b.z ^ 2) := by
    nlinarith [sq_nonneg (a.x * b.y - a.y * b.x),
      sq_nonneg (a.x * b.z - a.z * b.x), sq_nonneg (a.y * b.z - a.z * b.y)]
  have hD : a.x * b.x + a.y * b.y + a.z * b.z
      ≤ Real.sqrt (a.x ^ 2 + a.y ^ 2 + a.z ^ 2)
        * Real.sqrt (b.x ^ 2 + b.y ^ 2 + b.z ^ 2) := by
    rcases le_or_lt (a.x * b.x + a.y * b.y + a.z * b.z) 0 with hneg | hposd
    · exact hneg.trans (by positivity)
    · calc a.x * b.x + a.y * b.y + a.z * b.z
          = Real.sqrt ((a.x * b.x + a.y * b.y + a.z * b.z) ^ 2) :=
            (Real.sqrt_sq hposd.le).symm
        _ ≤ Real.sqrt ((a.x ^ 2 + a.y ^ 2 + a.z ^ 2)
              * (b.x ^ 2 + b.y ^ 2 + b.z ^ 2)) := Real.sqrt_le_sqrt hD2
        _ = Real.sqrt (a.x ^ 2 + a.y ^ 2 + a.z ^ 2)
              * Real.sqrt (b.x ^ 2 + b.y ^ 2 + b.z ^ 2) := Real.sqrt_mul hA _
  have hsum : (a.add b).x ^ 2 + (a.add b).y ^ 2 + (a.add b).z ^ 2
      = (a.x ^ 2 + a.y ^ 2 + a.z ^ 2) + 2 * (a.x * b.x + a.y * b.y + a.z * b.z)
        + (b.x ^ 2 + b.y ^ 2 + b.z ^ 2) := by
    simp only [add]
    ring
  have hsq : (a.x ^ 2 + a.y ^ 2 + a.z ^ 2)
        + 2 * (a.x * b.x + a.y * b.y + a.z * b.z)
        + (b.x ^ 2 + b.y ^ 2 + b.z ^ 2)
      ≤ (Real.sqrt (a.x ^ 2 + a.y ^ 2 + a.z ^ 2)
          + Real.sqrt (b.x ^ 2 + b.y ^ 2 + b.z ^ 2)) ^ 2 := by
    have sA := Real.sq_sqrt hA
    have sB := Real.sq_sqrt hB
    nlinarith [hD]
  calc (a.add b).length
      = Real.sqrt ((a.x ^ 2 + a.y ^ 2 + a.z ^ 2)
          + 2 * (a.x * b.x + a.y * b.y + a.z * b.z)
          + (b.x ^ 2 + b.y ^ 2 + b.z ^ 2)) := by rw [length, hsum]
    _ ≤ Real.sqrt ((Real.sqrt (a.x ^ 2 + a.y ^ 2 + a.z ^ 2)
          + Real.sqrt (b.x ^ 2 + b.y ^ 2 + b.z ^ 2)) ^ 2) :=
        Real.sqrt_le_sqrt hsq
    _ = a.length + b.length := by
        rw [Real.sqrt_sq (by positivity)]
        rfl

theorem distanceTo_comm (a b : Vec3) : a.distanceTo b = b.distanceTo a := by
  unfold distanceTo length sub
  congr 1
  ring

end Vec3

/-- Rendering modes of the simulation (the `RenderingModes` string enum). -/
inductive RenderingMode where
  | Simple
  | Photorealistic
deriving DecidableEq

/-- Axis-aligned bounds of the simulation volume (`Bounds3D`). -/
structure Bounds3D where
  xMin : ℝ
  xMax : ℝ
  yMin : ℝ
  yMax : ℝ
  zMin : ℝ
  zMax : ℝ

/-- A cylindrical obstacle: a base point in the x/z plane and a radius
(the `cylinder.basePoint.x`, `cylinder.basePoint.z`, `cylinder.radius`
fields read by ObstacleAvoidanceRule). -/
structure Cylinder where
  baseX : ℝ
  baseZ : ℝ
  radius : ℝ

/-- Modelled from the spec: the `World` class (worlds/World.ts is not among
the provided sources; only its consumers are).  Per the spec a world is a
named definition carrying axis-aligned bounds and a set of cylindrical
obstacles, immutable once constructed. -/
structure World where
  name : String
  boundaries : Bounds3D
  cylinders : List Cylinder

/-- Modelled from the spec: `World.get3DBoundaries()` returns the world's
axis-aligned bounds (the spec's "defines the simulation volume"). -/
def World.get3DBoundaries (w : World) : Bounds3D := w.boundaries

/-- The tunable simulation parameters (`BoidSimulationParams`).  The
active dropoff is modelled by its evaluation function
`dropoffRule : distance → weight` (`simParams.dropoffRule.fn` in the
source). -/
structure SimParams where
  boidCount : Nat
  visibilityThreshold : ℝ
  maxSpeed : ℝ
  worldName : String
  worldDimens : Bounds3D
  rendering : RenderingMode
  randomnessPerTimestep : ℝ
  randomnessLimit : ℝ
  dropoffRule : ℝ → ℝ

/-- Per-agent state of a `Boid`: the stable id, the mesh position, the
velocity, the persistent random bias, and the orientation derived from the
velocity (`pointInDirection` stores the yaw/pitch pair (phi, theta) on the
mesh rotation). -/
structure Boid where
  id : Nat
  position : Vec3
  velocity : Vec3
  randomBias : Vec3
  orientation : ℝ × ℝ

/-- The context handed to every rule evaluation (`RuleArguments`). -/
structure RuleArguments where
  neighbours : List Boid
  simParams : SimParams

/-- A rule's `calculateVector` capability: the rule's weight and tunables
are baked into the function (`Rule.calculateVector(thisBoid, args)`). -/
abbrev RuleFn : Type := Boid → RuleArguments → Vec3

/-- Two-argument arctangent as used by `Math.atan2(y, x)`. -/
def atan2 (y x : ℝ) : ℝ :=
  if 0 < x then Real.arctan (y / x)
  else if x < 0 then
    (if 0 ≤ y then Real.arctan (y / x) + Real.pi else Real.arctan (y / x) - Real.pi)
  else
    (if 0 < y then Real.pi / 2 else if y < 0 then -(Real.pi / 2) else 0)

/-- The orientation `pointInDirection` derives from a velocity vector:
yaw `phi = atan2(-z, x)` and pitch `theta = atan2(sqrt(x^2+z^2), y)`,
with no memory of the previous orientation. -/
def orientationOf (v : Vec3) : ℝ × ℝ :=
  (atan2 (-v.z) v.x, atan2 (Real.sqrt (v.x ^ 2 + v.z ^ 2)) v.y)

namespace Boid

/-- Transcribes `Boid.isOtherBoidVisible(other, visibilityThreshold)`:
`this.position.distanceTo(other.position) < visibilityThreshold`. -/
def isOtherBoidVisible (b other : Boid) (visibilityThreshold : ℝ) : Prop :=
  b.position.distanceTo other.position < visibilityThreshold

/-- Modelled from the spec: `Boid.toOther(neighbour, ...)` is called by the
rules but absent from the provided sources.  Per the spec's Separation rule
("for each neighbor, compute the vector from neighbor to agent") it is the
vector from the neighbour's position to this boid's position. -/
def toOther (b other : Boid) : Vec3 := b.position.sub other.position

/-- Transcribes `Boid.capSpeed(maxSpeed)`: rescale the velocity to exactly `maxSpeed`
when its length exceeds `maxSpeed`. -/
def capSpeed (maxSpeed : ℝ) (b : Boid) : Boid :=
  if b.velocity.length > maxSpeed
  then { b with velocity := b.velocity.setLength maxSpeed }
  else b

/-- Transcribes `Boid.updateRandomBias(randomnessPerTimestep, randomnessLimit)`: add a
per-axis delta `Math.random()*r - r/2` (the three Math.random() samples are
the components of `u`), then divide the bias by 100 once its length exceeds
`randomnessLimit`.  Returns the new bias. -/
def updateRandomBias (randomnessPerTimestep randomnessLimit : ℝ)
    (u : Vec3) (bias : Vec3) : Vec3 :=
  let b := bias.add ⟨u.x * randomnessPerTimestep - randomnessPerTimestep / 2,
                    u.y * randomnessPerTimestep - randomnessPerTimestep / 2,
                    u.z * randomnessPerTimestep - randomnessPerTimestep / 2⟩
  if b.length > randomnessLimit then b.divideScalar 100 else b

/-- Transcribes `Boid.addRandomnessToVelocity(ruleArguments)`: update the persistent
random bias, then add it to the velocity. -/
def addRandomnessToVelocity (args : RuleArguments) (u : Vec3) (b : Boid) : Boid :=
  let nb := updateRandomBias args.simParams.randomnessPerTimestep
    args.simParams.randomnessLimit u b.randomBias
  { b with randomBias := nb, velocity := b.velocity.add nb }

/-- Transcribes `Boid.move()`: point the boid in the direction of its velocity, then
add the velocity to the position. -/
def move (b : Boid) : Boid :=
  { b with orientation := orientationOf b.velocity,
           position := b.position.add b.velocity }

/-- The rule-evaluation loop at the top of `Boid.updateAndMove`: for each
rule in order, evaluate it against the (partially updated) boid and add
the returned vector to the velocity. -/
def applyRules (rules : List RuleFn) (args : RuleArguments) (b : Boid) : Boid :=
  rules.foldl (fun bb r => { bb with velocity := bb.velocity.add (r bb args) }) b

/-- Transcribes `Boid.updateAndMove(rules, ruleArguments)`: rule forces, then speed
cap, then randomness, then move.  `u` carries the tick's three
Math.random() samples for the bias update. -/
def updateAndMove (rules : List RuleFn) (args : RuleArguments)
    (u : Vec3) (b : Boid) : Boid :=
  move (addRandomnessToVelocity args u
    (capSpeed args.simParams.maxSpeed (applyRules rules args b)))

end Boid

/-- The per-tick update pipeline exactly as the spec's §4.4 step list
describes it: (1) rule forces added to the velocity, (2) speed capped at
maxSpeed, (3) persistent random bias updated and added, (4) velocity added
to the position, (5) orientation recomputed purely from the new
velocity. -/
def canonicalUpdate (rules : List RuleFn) (args : RuleArguments)
    (u : Vec3) (b : Boid) : Boid :=
  let v1 := (Boid.applyRules rules args b).velocity
  let v2 := if v1.length > args.simParams.maxSpeed
            then v1.setLength args.simParams.maxSpeed else v1
  let nb := Boid.updateRandomBias args.simParams.randomnessPerTimestep
    args.simParams.randomnessLimit u b.randomBias
  let v3 := v2.add nb
  { id := b.id
    position := b.position.add v3
    velocity := v3
    randomBias := nb
    orientation := orientationOf v3 }

/-- The rule loop only ever writes the velocity: id, position, random bias
and orientation pass through unchanged. -/
theorem applyRules_fields (rules : List RuleFn) (args : RuleArguments) (b : Boid) :
    (Boid.applyRules rules args b).id = b.id ∧
    (Boid.applyRules rules args b).position = b.position ∧
    (Boid.applyRules rules args b).randomBias = b.randomBias ∧
    (Boid.applyRules rules args b).orientation = b.orientation := by
  induction rules generalizing b with
  | nil => exact ⟨rfl, rfl, rfl, rfl⟩
  | cons r rs ih =>
    simpa only [Boid.applyRules, List.foldl_cons] using
      ih { b with velocity := b.velocity.add (r b args) }

/-- C1: on every tick `Boid.updateAndMove` performs exactly the canonical
step sequence — rule forces added directly to the velocity (no mass or
timestep scaling), then the speed cap at maxSpeed, then the persistent
random-bias update and its addition to the velocity, then the position
integration, with the orientation recomputed purely from the new velocity.
In particular the speed cap runs before the randomness step. -/
theorem updateAndMove_follows_canonical_order (rules : List RuleFn)
    (args : RuleArguments) (u : Vec3) (b : Boid) :
    Boid.updateAndMove rules args u b = canonicalUpdate rules args u b := by
  obtain ⟨hid, hp, hb, ho⟩ := applyRules_fields rules args b
  unfold Boid.updateAndMove canonicalUpdate Boid.move Boid.addRandomnessToVelocity
    Boid.capSpeed
  dsimp only
  split_ifs with h
  · simp [hid, hp, hb]
  · simp [hid, hp, hb]

/-- Sample world bounds used by the concrete witnesses below. -/
def sampleBounds : Bounds3D := ⟨-100, 100, 0, 50, -100, 100⟩

/-- Sample simulation parameters (the source's defaults: maxSpeed 0.5,
randomnessPerTimestep 0.01, randomnessLimit 0.1). -/
def sampleParams : SimParams :=
  ⟨1, 25, 0.5, "Default", sampleBounds, RenderingMode.Simple, 0.01, 0.1, fun _ => 1⟩

/-- Sample rule arguments: no neighbours, default parameters. -/
def sampleArgs : RuleArguments := ⟨[], sampleParams⟩

/-- Sample boid travelling at exactly maxSpeed along the x axis, with a
zero random bias. -/
def sampleBoid : Boid := ⟨0, Vec3.zero, ⟨0.5, 0, 0⟩, Vec3.zero, (0, 0)⟩

/-- Sample Math.random() outputs for one bias update: 0.9 on x (so the x
delta is 0.9·0.01 − 0.005 = 0.004) and 0.5 on y and z (zero delta). -/
def sampleU : Vec3 := ⟨0.9, 0.5, 0.5⟩

/-- C1 witness: the canonical-order equation instantiated at a concrete
boid, empty rule list and concrete random samples. -/
theorem updateAndMove_follows_canonical_order_witness :
    Boid.updateAndMove [] sampleArgs sampleU sampleBoid
      = canonicalUpdate [] sampleArgs sampleU sampleBoid :=
  updateAndMove_follows_canonical_order [] sampleArgs sampleU sampleBoid

/-- Shared helper: after the speed-cap step the velocity magnitude is at
most the (non-negative) maxSpeed. -/
theorem capSpeed_velocity_length_le (m : ℝ) (b : Boid) (h : 0 ≤ m) :
    (Boid.capSpeed m b).velocity.length ≤ m := by
  unfold Boid.capSpeed
  split_ifs with hc
  · have hv : b.velocity.length ≠ 0 := by
      intro h0
      rw [h0] at hc
      exact absurd hc (not_lt.mpr h)
    dsimp only
    rw [Vec3.setLength_length m hv h]
  · exact not_lt.mp hc

/-- C2 counterexample: the claim "after any tick the speed never exceeds
maxSpeed" fails on the code, because the random bias is added to the
velocity after the cap.  A boid at exactly maxSpeed = 0.5, with legal
Math.random() samples (each in [0,1)), ends the tick at speed 0.504. -/
theorem tick_speed_can_exceed_maxSpeed :
    ((0:ℝ) ≤ 0.9 ∧ (0.9:ℝ) < 1 ∧ (0:ℝ) ≤ 0.5 ∧ (0.5:ℝ) < 1) ∧
    sampleParams.maxSpeed <
      (Boid.updateAndMove [] sampleArgs sampleU sampleBoid).velocity.length := by
  refine ⟨by norm_num, ?_⟩
  have hlen : sampleBoid.velocity.length = 0.5 := by
    show (Vec3.mk 0.5 0 0).length = 0.5
    exact Vec3.length_mk_x_nonneg _ (by norm_num)
  have hc : ¬ (sampleBoid.velocity.length > sampleParams.maxSpeed) := by
    rw [hlen]
    norm_num [sampleParams]
  have h2 : Boid.capSpeed sampleParams.maxSpeed sampleBoid = sampleBoid := by
    unfold Boid.capSpeed
    rw [if_neg hc]
  have hdelta : (sampleBoid.randomBias).add
      ⟨sampleU.x * sampleParams.randomnessPerTimestep
          - sampleParams.randomnessPerTimestep / 2,
        sampleU.y * sampleParams.randomnessPerTimestep
          - sampleParams.randomnessPerTimestep / 2,
        sampleU.z * sampleParams.randomnessPerTimestep
          - sampleParams.randomnessPerTimestep / 2⟩
      = Vec3.mk 0.004 0 0 := by
    show Vec3.mk (0 + (0.9 * 0.01 - 0.01 / 2)) (0 + (0.5 * 0.01 - 0.01 / 2))
        (0 + (0.5 * 0.01 - 0.01 / 2)) = Vec3.mk 0.004 0 0
    norm_num [Vec3.mk.injEq]
  have hbl : (Vec3.mk 0.004 0 0).length = 0.004 :=
    Vec3.length_mk_x_nonneg _ (by norm_num)
  have h3 : Boid.updateRandomBias sampleParams.randomnessPerTimestep
      sampleParams.randomnessLimit sampleU sampleBoid.randomBias
        = Vec3.mk 0.004 0 0 := by
    unfold Boid.updateRandomBias
    dsimp only
    rw [hdelta, if_neg (by rw [hbl]; norm_num [sampleParams])]
  have h4 : Boid.addRandomnessToVelocity sampleArgs sampleU sampleBoid =
      { sampleBoid with
          randomBias := Vec3.mk 0.004 0 0
          velocity := sampleBoid.velocity.add (Vec3.mk 0.004 0 0) } := by
    show { sampleBoid with
        randomBias := Boid.updateRandomBias sampleParams.randomnessPerTimestep
          sampleParams.randomnessLimit sampleU sampleBoid.randomBias
        velocity := sampleBoid.velocity.add
          (Boid.updateRandomBias sampleParams.randomnessPerTimestep
            sampleParams.randomnessLimit sampleU sampleBoid.randomBias) } = _
    rw [h3]
  show sampleParams.maxSpeed <
    (Boid.move (Boid.addRandomnessToVelocity sampleArgs sampleU
      (Boid.capSpeed sampleParams.maxSpeed sampleBoid))).velocity.length
  rw [h2, h4]
  show sampleParams.maxSpeed < ((Vec3.mk 0.5 0 0).add (Vec3.mk 0.004 0 0)).length
  rw [show (Vec3.mk 0.5 0 0).add (Vec3.mk 0.004 0 0) = Vec3.mk 0.504 0 0 from by
    show Vec3.mk (0.5 + 0.004) (0 + 0) (0 + 0) = Vec3.mk 0.504 0 0
    norm_num [Vec3.mk.injEq]]
  rw [Vec3.length_mk_x_nonneg _ (by norm_num : (0:ℝ) ≤ 0.504)]
  norm_num [sampleParams]

/-- C2 amended: the speed bound `|velocity| ≤ maxSpeed` holds immediately
after the speed-cap step of the tick (for a non-negative maxSpeed); the
completed tick only guarantees `maxSpeed + |randomBias|`, because the
randomness step adds the bias after the cap. -/
theorem capSpeed_bounds_speed (m : ℝ) (b : Boid) (h : 0 ≤ m) :
    (Boid.capSpeed m b).velocity.length ≤ m :=
  capSpeed_velocity_length_le m b h

/-- C2 amended witness at a concrete boid and maxSpeed. -/
theorem capSpeed_bounds_speed_witness :
    (0:ℝ) ≤ 0.5 ∧ (Boid.capSpeed 0.5 sampleBoid).velocity.length ≤ 0.5 :=
  ⟨by norm_num, capSpeed_bounds_speed 0.5 sampleBoid (by norm_num)⟩

/-- C3: after any tick the velocity magnitude is at most maxSpeed plus the
magnitude of the random bias as it stands after the tick's rescale step
(the final randomBias field), provided the configured maxSpeed is
non-negative. -/
theorem tick_speed_bounded_by_maxSpeed_plus_bias (rules : List RuleFn)
    (args : RuleArguments) (u : Vec3) (b : Boid)
    (h : 0 ≤ args.simParams.maxSpeed) :
    (Boid.updateAndMove rules args u b).velocity.length ≤
      args.simParams.maxSpeed
        + (Boid.updateAndMove rules args u b).randomBias.length := by
  unfold Boid.updateAndMove Boid.move Boid.addRandomnessToVelocity
  dsimp only
  refine le_trans (Vec3.length_add_le _ _) ?_
  exact add_le_add_right (capSpeed_velocity_length_le _ _ h) _

/-- Transcribes `SeparationRule.calculateVector`: early-out on an empty neighbour
list; otherwise accumulate `dropoff(distance)`-weighted neighbour-to-agent
vectors and the weight sum, guard against a zero weight sum, then divide,
normalize and scale by the rule weight. -/
def SeparationRule.calculateVector (weight : ℝ) (thisBoid : Boid)
    (args : RuleArguments) : Vec3 :=
  if args.neighbours.isEmpty then Vec3.zero
  else
    let acc := args.neighbours.foldl
      (fun (p : Vec3 × ℝ) neighbour =>
        let vecToOther := thisBoid.toOther neighbour
        let w := args.simParams.dropoffRule vecToOther.length
        (p.1.addScaledVector vecToOther w, p.2 + w))
      (Vec3.zero, 0)
    if acc.2 = 0 then Vec3.zero
    else ((acc.1.divideScalar acc.2).normalize).multiplyScalar weight

/-- Transcribes `CohesionRule.calculateVector`: early-out on an empty neighbour list;
otherwise accumulate the dropoff-weighted centroid of neighbour positions
and the weight sum, divide by the weight sum (with no zero guard, unlike
Separation), steer toward the centroid, normalize and scale by the rule
weight.  The source reads the dropoff from `args.dropoff.fn`; it is the
same configured dropoff modelled here as `simParams.dropoffRule`. -/
def CohesionRule.calculateVector (weight : ℝ) (thisBoid : Boid)
    (args : RuleArguments) : Vec3 :=
  if args.neighbours.isEmpty then Vec3.zero
  else
    let acc := args.neighbours.foldl
      (fun (p : Vec3 × ℝ) neighbour =>
        let w := args.simParams.dropoffRule (thisBoid.toOther neighbour).length
        (p.1.addScaledVector neighbour.position w, p.2 + w))
      (Vec3.zero, 0)
    (((acc.1.divideScalar acc.2).sub thisBoid.position).normalize).multiplyScalar
      weight

/-- Parameters whose active dropoff assigns weight zero to every distance
(reachable, e.g., with a ProportionalDropoff whose radius is below the
current visibility threshold). -/
def zeroWeightParams : SimParams :=
  ⟨1, 25, 0.5, "Default", sampleBounds, RenderingMode.Simple, 0.01, 0.1, fun _ => 0⟩

/-- Agent at (1,0,0) for the zero-weight-sum scenario. -/
def zwBoid : Boid := ⟨0, ⟨1, 0, 0⟩, Vec3.zero, Vec3.zero, (0, 0)⟩

/-- A single visible neighbour at (5,0,0). -/
def zwNeighbour : Boid := ⟨1, ⟨5, 0, 0⟩, Vec3.zero, Vec3.zero, (0, 0)⟩

/-- Rule arguments with one neighbour and an all-zero dropoff, so the
accumulated weight sum is exactly zero. -/
def zeroWeightArgs : RuleArguments := ⟨[zwNeighbour], zeroWeightParams⟩

/-- C4: at a rule-evaluation context with one neighbour whose dropoff
weight is zero (weight sum = 0), Separation returns the zero vector as
claimed, but Cohesion divides the accumulated centroid by the zero weight
sum — it lacks Separation's `weightSum == 0` guard — and returns the
non-zero steering vector (−1,0,0) (in IEEE arithmetic, a NaN vector)
instead of the zero vector the claim requires. -/
theorem cohesion_zero_weight_sum_not_zero_vector :
    SeparationRule.calculateVector 1 zwBoid zeroWeightArgs = Vec3.zero ∧
    CohesionRule.calculateVector 1 zwBoid zeroWeightArgs = Vec3.mk (-1) 0 0 ∧
    Vec3.mk (-1) 0 0 ≠ Vec3.zero := by
  refine ⟨?_, ?_, ?_⟩
  · norm_num [SeparationRule.calculateVector, zeroWeightArgs, zeroWeightParams,
      zwBoid, zwNeighbour, List.foldl]
  · have hne : ¬ (zeroWeightArgs.neighbours.isEmpty = true) := by
      simp [zeroWeightArgs]
    unfold CohesionRule.calculateVector
    rw [if_neg hne]
    show ((((Vec3.zero.addScaledVector zwNeighbour.position
        (zeroWeightArgs.simParams.dropoffRule
          (zwBoid.toOther zwNeighbour).length)).divideScalar
        ((0:ℝ) + zeroWeightArgs.simParams.dropoffRule
          (zwBoid.toOther zwNeighbour).length)).sub
        zwBoid.position).normalize).multiplyScalar 1 = Vec3.mk (-1) 0 0
    have e1 : Vec3.zero.addScaledVector zwNeighbour.position
        (zeroWeightArgs.simParams.dropoffRule
          (zwBoid.toOther zwNeighbour).length) = Vec3.mk 0 0 0 := by
      show Vec3.mk (0 + 0 * 5) (0 + 0 * 0) (0 + 0 * 0) = Vec3.mk 0 0 0
      norm_num [Vec3.mk.injEq]
    have e2 : (Vec3.mk 0 0 0).divideScalar
        ((0:ℝ) + zeroWeightArgs.simParams.dropoffRule
          (zwBoid.toOther zwNeighbour).length) = Vec3.mk 0 0 0 := by
      show Vec3.mk (1 / ((0:ℝ) + 0) * 0) (1 / ((0:ℝ) + 0) * 0)
          (1 / ((0:ℝ) + 0) * 0) = Vec3.mk 0 0 0
      norm_num [Vec3.mk.injEq]
    have e3 : (Vec3.mk 0 0 0).sub zwBoid.position = Vec3.mk (-1) 0 0 := by
      show Vec3.mk ((0:ℝ) - 1) ((0:ℝ) - 0) ((0:ℝ) - 0) = Vec3.mk (-1) 0 0
      norm_num [Vec3.mk.injEq]
    have hl : (Vec3.mk (-1) 0 0).length = 1 := by
      rw [Vec3.length_mk_x]
      norm_num
    have e4 : (Vec3.mk (-1) 0 0).normalize = Vec3.mk (-1) 0 0 := by
      unfold Vec3.normalize
      rw [hl, if_neg one_ne_zero]
      show Vec3.mk ((1:ℝ) / 1 * -1) ((1:ℝ) / 1 * 0) ((1:ℝ) / 1 * 0)
          = Vec3.mk (-1) 0 0
      norm_num [Vec3.mk.injEq]
    have e5 : (Vec3.mk (-1) 0 0).multiplyScalar 1 = Vec3.mk (-1) 0 0 := by
      show Vec3.mk ((1:ℝ) * -1) ((1:ℝ) * 0) ((1:ℝ) * 0) = Vec3.mk (-1) 0 0
      norm_num [Vec3.mk.injEq]
    rw [e1, e2, e3, e4, e5]
  · intro hcontra
    have := congrArg Vec3.x hcontra
    norm_num [Vec3.zero] at this

/-- The `avoidanceVector` of ObstacleAvoidanceRule for one cylinder: the
boid's position minus the cylinder base point adjusted to the boid's
height, i.e. the planar (same-height) offset from the cylinder axis. -/
def ObstacleAvoidanceRule.planarOffset (cyl : Cylinder) (p : Vec3) : Vec3 :=
  p.sub ⟨cyl.baseX, p.y, cyl.baseZ⟩

/-- The distance from the cylinder surface used by ObstacleAvoidanceRule:
planar distance to the axis minus the radius, clamped to zero inside the
cylinder. -/
def ObstacleAvoidanceRule.surfaceDistance (cyl : Cylinder) (p : Vec3) : ℝ :=
  let d := (ObstacleAvoidanceRule.planarOffset cyl p).length - cyl.radius
  if d < 0 then 0 else d

/-- One cylinder's contribution: the planar offset rescaled to the
magnitude `Math.pow(SHARPNESS, -(distance - 10))`. -/
def ObstacleAvoidanceRule.cylinderAvoidance (sharpness : ℝ) (cyl : Cylinder)
    (p : Vec3) : Vec3 :=
  (ObstacleAvoidanceRule.planarOffset cyl p).setLength
    (sharpness ^ (-(ObstacleAvoidanceRule.surfaceDistance cyl p - 10)))

/-- Transcribes `ObstacleAvoidanceRule.calculateVector`: sum the per-cylinder
avoidance vectors over the rule's current world and scale by the rule
weight. -/
def ObstacleAvoidanceRule.calculateVector (sharpness weight : ℝ) (world : World)
    (thisBoid : Boid) : Vec3 :=
  (world.cylinders.foldl
    (fun acc cyl =>
      acc.add (ObstacleAvoidanceRule.cylinderAvoidance sharpness cyl
        thisBoid.position))
    Vec3.zero).multiplyScalar weight

theorem Vec3.setLength_zero_vector (l : ℝ) :
    (Vec3.mk 0 0 0).setLength l = Vec3.mk 0 0 0 := by
  have h0 : (Vec3.mk 0 0 0).length = 0 := Vec3.length_mk_x_nonneg 0 le_rfl
  unfold Vec3.setLength Vec3.normalize Vec3.divideScalar
  rw [if_pos h0]
  show Vec3.mk (l * (1 / 1 * 0)) (l * (1 / 1 * 0)) (l * (1 / 1 * 0))
      = Vec3.mk 0 0 0
  norm_num [Vec3.mk.injEq]

/-- C6 amended: for a fixed single cylinder and sharpness ≥ 1, among agent
positions that are not exactly on the cylinder axis (non-zero planar
offset), the obstacle-avoidance force magnitude is non-increasing in the
clamped surface distance. -/
theorem obstacle_force_monotone_off_axis (sharpness weight : ℝ) (world : World)
    (cyl : Cylinder) (bp bq : Boid)
    (hw : world.cylinders = [cyl])
    (hs : 1 ≤ sharpness)
    (hp : (ObstacleAvoidanceRule.planarOffset cyl bp.position).length ≠ 0)
    (hq : (ObstacleAvoidanceRule.planarOffset cyl bq.position).length ≠ 0)
    (hd : ObstacleAvoidanceRule.surfaceDistance cyl bp.position ≤
      ObstacleAvoidanceRule.surfaceDistance cyl bq.position) :
    (ObstacleAvoidanceRule.calculateVector sharpness weight world bq).length ≤
      (ObstacleAvoidanceRule.calculateVector sharpness weight world bp).length := by
  have hs0 : (0:ℝ) < sharpness := lt_of_lt_of_le one_pos hs
  have hmp : (0:ℝ) < sharpness
      ^ (-(ObstacleAvoidanceRule.surfaceDistance cyl bp.position - 10)) :=
    Real.rpow_pos_of_pos hs0 _
  have hmq : (0:ℝ) < sharpness
      ^ (-(ObstacleAvoidanceRule.surfaceDistance cyl bq.position - 10)) :=
    Real.rpow_pos_of_pos hs0 _
  unfold ObstacleAvoidanceRule.calculateVector
  rw [hw]
  simp only [List.foldl_cons, List.foldl_nil, Vec3.zero_add_vec]
  rw [Vec3.length_multiplyScalar, Vec3.length_multiplyScalar]
  unfold ObstacleAvoidanceRule.cylinderAvoidance
  rw [Vec3.setLength_length _ hq hmq.le, Vec3.setLength_length _ hp hmp.le]
  refine mul_le_mul_of_nonneg_left ?_ (abs_nonneg weight)
  exact Real.rpow_le_rpow_of_exponent_le hs (by linarith)

/-- The single unit-radius cylinder at the origin used by the C6
scenarios. -/
def obstacleCylinder : Cylinder := ⟨0, 0, 1⟩

/-- A world holding exactly that cylinder. -/
def obstacleWorld : World := ⟨"Obstacles", sampleBounds, [obstacleCylinder]⟩

/-- A boid exactly on the cylinder axis. -/
def axisBoid : Boid := ⟨2, ⟨0, 0, 0⟩, Vec3.zero, Vec3.zero, (0, 0)⟩

/-- A boid inside the cylinder radius but off the axis. -/
def nearBoid : Boid := ⟨3, ⟨1 / 2, 0, 0⟩, Vec3.zero, Vec3.zero, (0, 0)⟩

/-- A boid at surface distance 2. -/
def farBoid : Boid := ⟨4, ⟨3, 0, 0⟩, Vec3.zero, Vec3.zero, (0, 0)⟩

/-- A boid at surface distance 3. -/
def fartherBoid : Boid := ⟨5, ⟨4, 0, 0⟩, Vec3.zero, Vec3.zero, (0, 0)⟩

/-- C6 counterexample: with sharpness 1 (≥ 1 as the claim allows) and the
unit cylinder, the boid exactly on the axis and the boid at (0.5, 0, 0)
both have clamped surface distance 0, yet the force magnitude at the axis
(0, from normalizing the zero offset) is strictly smaller than the force
magnitude off the axis (1) — so the force magnitude is not a
non-increasing function of the surface distance over all positions. -/
theorem obstacle_force_jumps_at_axis :
    ObstacleAvoidanceRule.surfaceDistance obstacleCylinder axisBoid.position ≤
      ObstacleAvoidanceRule.surfaceDistance obstacleCylinder nearBoid.position ∧
    (ObstacleAvoidanceRule.calculateVector 1 1 obstacleWorld axisBoid).length <
      (ObstacleAvoidanceRule.calculateVector 1 1 obstacleWorld nearBoid).length := by
  have po1 : ObstacleAvoidanceRule.planarOffset obstacleCylinder axisBoid.position
      = Vec3.mk 0 0 0 := by
    show Vec3.mk ((0:ℝ) - 0) ((0:ℝ) - 0) ((0:ℝ) - 0) = Vec3.mk 0 0 0
    norm_num [Vec3.mk.injEq]
  have po2 : ObstacleAvoidanceRule.planarOffset obstacleCylinder nearBoid.position
      = Vec3.mk (1 / 2) 0 0 := by
    show Vec3.mk ((1:ℝ) / 2 - 0) ((0:ℝ) - 0) ((0:ℝ) - 0) = Vec3.mk (1 / 2) 0 0
    norm_num [Vec3.mk.injEq]
  have sd1 : ObstacleAvoidanceRule.surfaceDistance obstacleCylinder
      axisBoid.position = 0 := by
    unfold ObstacleAvoidanceRule.surfaceDistance
    dsimp only
    rw [po1, Vec3.length_mk_x_nonneg 0 le_rfl,
      if_pos (by norm_num [obstacleCylinder] :
        (0:ℝ) - obstacleCylinder.radius < 0)]
  have sd2 : ObstacleAvoidanceRule.surfaceDistance obstacleCylinder
      nearBoid.position = 0 := by
    unfold ObstacleAvoidanceRule.surfaceDistance
    dsimp only
    rw [po2, Vec3.length_mk_x_nonneg (1 / 2) (by norm_num),
      if_pos (by norm_num [obstacleCylinder] :
        (1:ℝ) / 2 - obstacleCylinder.radius < 0)]
  refine ⟨by rw [sd1, sd2], ?_⟩
  have f1 : ObstacleAvoidanceRule.calculateVector 1 1 obstacleWorld axisBoid
      = Vec3.mk 0 0 0 := by
    unfold ObstacleAvoidanceRule.calculateVector
      ObstacleAvoidanceRule.cylinderAvoidance
    rw [show obstacleWorld.cylinders = [obstacleCylinder] from rfl,
      List.foldl_cons, List.foldl_nil, Vec3.zero_add_vec, po1,
      Vec3.setLength_zero_vector]
    show Vec3.mk ((1:ℝ) * 0) ((1:ℝ) * 0) ((1:ℝ) * 0) = Vec3.mk 0 0 0
    norm_num [Vec3.mk.injEq]
  have hq0 : (ObstacleAvoidanceRule.planarOffset obstacleCylinder
      nearBoid.position).length ≠ 0 := by
    rw [po2, Vec3.length_mk_x_nonneg (1 / 2) (by norm_num)]
    norm_num
  have f2 : (ObstacleAvoidanceRule.calculateVector 1 1 obstacleWorld
      nearBoid).length = 1 := by
    unfold ObstacleAvoidanceRule.calculateVector
    rw [show obstacleWorld.cylinders = [obstacleCylinder] from rfl,
      List.foldl_cons, List.foldl_nil, Vec3.zero_add_vec,
      Vec3.length_multiplyScalar]
    unfold ObstacleAvoidanceRule.cylinderAvoidance
    have hm : (0:ℝ) ≤ (1:ℝ)
        ^ (-(ObstacleAvoidanceRule.surfaceDistance obstacleCylinder
            nearBoid.position - 10)) :=
      (Real.rpow_pos_of_pos one_pos _).le
    rw [Vec3.setLength_length _ hq0 hm, Real.one_rpow]
    norm_num
  rw [f1, f2, Vec3.length_mk_x_nonneg 0 le_rfl]
  norm_num

/-- C6 amended witness: sharpness 2, the unit cylinder, and two off-axis
boids at surface distances 2 and 3. -/
theorem obstacle_force_monotone_off_axis_witness :
    (1:ℝ) ≤ 2 ∧
    (ObstacleAvoidanceRule.planarOffset obstacleCylinder farBoid.position).length ≠ 0 ∧
    (ObstacleAvoidanceRule.planarOffset obstacleCylinder fartherBoid.position).length ≠ 0 ∧
    ObstacleAvoidanceRule.surfaceDistance obstacleCylinder farBoid.position ≤
      ObstacleAvoidanceRule.surfaceDistance obstacleCylinder fartherBoid.position ∧
    (ObstacleAvoidanceRule.calculateVector 2 1 obstacleWorld fartherBoid).length ≤
      (ObstacleAvoidanceRule.calculateVector 2 1 obstacleWorld farBoid).length := by
  have po3 : ObstacleAvoidanceRule.planarOffset obstacleCylinder farBoid.position
      = Vec3.mk 3 0 0 := by
    show Vec3.mk ((3:ℝ) - 0) ((0:ℝ) - 0) ((0:ℝ) - 0) = Vec3.mk 3 0 0
    norm_num [Vec3.mk.injEq]
  have po4 : ObstacleAvoidanceRule.planarOffset obstacleCylinder
      fartherBoid.position = Vec3.mk 4 0 0 := by
    show Vec3.mk ((4:ℝ) - 0) ((0:ℝ) - 0) ((0:ℝ) - 0) = Vec3.mk 4 0 0
    norm_num [Vec3.mk.injEq]
  have hp : (ObstacleAvoidanceRule.planarOffset obstacleCylinder
      farBoid.position).length ≠ 0 := by
    rw [po3, Vec3.length_mk_x_nonneg 3 (by norm_num)]
    norm_num
  have hq : (ObstacleAvoidanceRule.planarOffset obstacleCylinder
      fartherBoid.position).length ≠ 0 := by
    rw [po4, Vec3.length_mk_x_nonneg 4 (by norm_num)]
    norm_num
  have sd3 : ObstacleAvoidanceRule.surfaceDistance obstacleCylinder
      farBoid.position = 2 := by
    unfold ObstacleAvoidanceRule.surfaceDistance
    dsimp only
    rw [po3, Vec3.length_mk_x_nonneg 3 (by norm_num),
      if_neg (by norm_num [obstacleCylinder] :
        ¬ ((3:ℝ) - obstacleCylinder.radius < 0))]
    norm_num [obstacleCylinder]
  have sd4 : ObstacleAvoidanceRule.surfaceDistance obstacleCylinder
      fartherBoid.position = 3 := by
    unfold ObstacleAvoidanceRule.surfaceDistance
    dsimp only
    rw [po4, Vec3.length_mk_x_nonneg 4 (by norm_num),
      if_neg (by norm_num [obstacleCylinder] :
        ¬ ((4:ℝ) - obstacleCylinder.radius < 0))]
    norm_num [obstacleCylinder]
  have hd : ObstacleAvoidanceRule.surfaceDistance obstacleCylinder
      farBoid.position ≤ ObstacleAvoidanceRule.surfaceDistance obstacleCylinder
      fartherBoid.position := by
    rw [sd3, sd4]
    norm_num
  exact ⟨by norm_num, hp, hq, hd,
    obstacle_force_monotone_off_axis 2 1 obstacleWorld obstacleCylinder
      farBoid fartherBoid rfl (by norm_num) hp hq hd⟩

/-- Transcribes `BoidSimulation.getBoidNeighbours(boid)`: walk the live collection,
skip the boid itself (the source's reference comparison `===`, modelled by
the unique id), and keep every other boid passing `isOtherBoidVisible`. -/
def BoidSimulation.getBoidNeighbours (visibilityThreshold : ℝ) :
    List Boid → Boid → List Boid
  | [], _ => []
  | otherBoid :: rest, boid =>
    if otherBoid.id = boid.id then
      BoidSimulation.getBoidNeighbours visibilityThreshold rest boid
    else if boid.isOtherBoidVisible otherBoid visibilityThreshold then
      otherBoid :: BoidSimulation.getBoidNeighbours visibilityThreshold rest boid
    else BoidSimulation.getBoidNeighbours visibilityThreshold rest boid

/-- C5: a distinct live agent b is in a's neighbour set exactly when their
Euclidean distance is strictly below the visibility threshold — so two
agents exactly `visibilityThreshold` apart are invisible to each other,
and any positive amount closer they are (by the symmetry of the distance,
also recorded here) mutually visible. -/
theorem neighbour_iff_strictly_within_visibility (t : ℝ) (boids : List Boid)
    (a b : Boid) :
    (b ∈ BoidSimulation.getBoidNeighbours t boids a ↔
      b ∈ boids ∧ b.id ≠ a.id ∧ a.position.distanceTo b.position < t) ∧
    a.position.distanceTo b.position = b.position.distanceTo a.position := by
  refine ⟨?_, Vec3.distanceTo_comm _ _⟩
  induction boids with
  | nil => simp [BoidSimulation.getBoidNeighbours]
  | cons o rest ih =>
    simp only [BoidSimulation.getBoidNeighbours]
    split_ifs with h1 h2
    · rw [ih]
      constructor
      · rintro ⟨hm, hid, hd⟩
        exact ⟨List.mem_cons_of_mem _ hm, hid, hd⟩
      · rintro ⟨hm, hid, hd⟩
        rcases List.mem_cons.mp hm with he | hm2
        · exact absurd (by rw [he]; exact h1) hid
        · exact ⟨hm2, hid, hd⟩
    · rw [List.mem_cons, ih]
      constructor
      · rintro (he | ⟨hm, hid, hd⟩)
        · subst he
          exact ⟨List.mem_cons_self _ _, h1, h2⟩
        · exact ⟨List.mem_cons_of_mem _ hm, hid, hd⟩
      · rintro ⟨hm, hid, hd⟩
        rcases List.mem_cons.mp hm with he | hm2
        · exact Or.inl he
        · exact Or.inr ⟨hm2, hid, hd⟩
    · rw [ih]
      constructor
      · rintro ⟨hm, hid, hd⟩
        exact ⟨List.mem_cons_of_mem _ hm, hid, hd⟩
      · rintro ⟨hm, hid, hd⟩
        rcases List.mem_cons.mp hm with he | hm2
        · subst he
          exact absurd hd h2
        · exact ⟨hm2, hid, hd⟩

/-- A boid at the origin for the neighbour-query witness. -/
def neighbourBoidA : Boid := ⟨6, ⟨0, 0, 0⟩, Vec3.zero, Vec3.zero, (0, 0)⟩

/-- A boid 3 units away, inside the visibility threshold of 5. -/
def neighbourBoidB : Boid := ⟨7, ⟨3, 0, 0⟩, Vec3.zero, Vec3.zero, (0, 0)⟩

/-- C5 witness: with visibility threshold 5, the boid 3 units away is in
the neighbour set. -/
theorem neighbour_iff_strictly_within_visibility_witness :
    neighbourBoidB ∈ BoidSimulation.getBoidNeighbours 5
      [neighbourBoidA, neighbourBoidB] neighbourBoidA := by
  have hdist : neighbourBoidA.position.distanceTo neighbourBoidB.position = 3 := by
    show (Vec3.mk ((0:ℝ) - 3) ((0:ℝ) - 0) ((0:ℝ) - 0)).length = 3
    rw [show Vec3.mk ((0:ℝ) - 3) ((0:ℝ) - 0) ((0:ℝ) - 0) = Vec3.mk (-3) 0 0 from by
      norm_num [Vec3.mk.injEq], Vec3.length_mk_x]
    norm_num
  refine ((neighbour_iff_strictly_within_visibility 5
    [neighbourBoidA, neighbourBoidB] neighbourBoidA neighbourBoidB).1).mpr
    ⟨List.mem_cons_of_mem _ (List.mem_cons_self _ _), by decide, ?_⟩
  rw [hdist]
  norm_num

/-- Transcribes `WorldTools.getWorldByName`: return the first world whose name
matches; throw ("World not found.") otherwise. -/
def WorldTools.getWorldByName : List World → String → Except String World
  | [], _ => Except.error "World not found."
  | w :: rest, worldName =>
    if w.name = worldName then Except.ok w
    else WorldTools.getWorldByName rest worldName

/-- C9: looking up a world by name reports an error when no world carries
that name (never a silent fallback), and otherwise returns the first world
in the registry whose name matches. -/
theorem getWorldByName_error_or_first_match (worlds : List World)
    (worldName : String) :
    ((∀ w ∈ worlds, w.name ≠ worldName) →
      WorldTools.getWorldByName worlds worldName
        = Except.error "World not found.") ∧
    (∀ l1 w l2, worlds = l1 ++ w :: l2 → w.name = worldName →
      (∀ u ∈ l1, u.name ≠ worldName) →
      WorldTools.getWorldByName worlds worldName = Except.ok w) := by
  constructor
  · intro hall
    induction worlds with
    | nil => rfl
    | cons v rest ih =>
      simp only [WorldTools.getWorldByName]
      rw [if_neg (hall v (List.mem_cons_self _ _))]
      exact ih fun u hu => hall u (List.mem_cons_of_mem _ hu)
  · intro l1 w l2 heq hw
    subst heq
    induction l1 with
    | nil =>
      intro _
      simp only [List.nil_append, WorldTools.getWorldByName]
      rw [if_pos hw]
    | cons v restl ihl =>
      intro hnomatch
      simp only [List.cons_append, WorldTools.getWorldByName]
      rw [if_neg (hnomatch v (List.mem_cons_self _ _))]
      exact ihl fun u hu => hnomatch u (List.mem_cons_of_mem _ hu)

/-- The default world of the registry. -/
def defaultWorld : World := ⟨"Default", sampleBounds, []⟩

/-- A second registered world. -/
def smallWorld : World := ⟨"Small World", sampleBounds, []⟩

/-- C9 witness: in the registry [Default, Small World], looking up
"Small World" returns that world (the first — and only — match). -/
theorem getWorldByName_error_or_first_match_witness :
    WorldTools.getWorldByName [defaultWorld, smallWorld] "Small World"
      = Except.ok smallWorld :=
  (getWorldByName_error_or_first_match [defaultWorld, smallWorld]
    "Small World").2 [defaultWorld] smallWorld [] rfl rfl (by
      intro u hu
      rw [List.mem_singleton] at hu
      subst hu
      decide)

/-- The state owned by `BoidSimulation`: the world registry, the
currently-loaded world name and rendering mode, the tunable parameters,
the live boid collection, the monotone id counter, and the world reference
cached inside the obstacle-avoidance rule (`obstacleAvoidRule.world`). -/
structure SimState where
  worlds : List World
  currentWorldName : String
  currentRendering : RenderingMode
  simParams : SimParams
  boids : List Boid
  nextBoidId : Nat
  obstacleRuleWorld : World

/-- The generation loop of `updateBoidCount` (`while (difference > 0)`):
push `k` freshly generated boids, incrementing the id counter each time.
`gen` models `BoidGenerator.generateBoidWithRandomPosAndVec(id, ...)`, the
factory that draws a random position and velocity for the given id. -/
def BoidSimulation.addBoids (gen : Nat → Boid) :
    Nat → List Boid → Nat → List Boid × Nat
  | 0, bs, nid => (bs, nid)
  | k + 1, bs, nid => BoidSimulation.addBoids gen k (bs ++ [gen nid]) (nid + 1)

/-- The removal loop of `updateBoidCount` (`while (difference < 0)`): pop
`k` boids from the end of the collection; `pop()` on an empty collection
returns undefined and the loop breaks (a no-op). -/
def BoidSimulation.removeBoids : Nat → List Boid → List Boid
  | 0, bs => bs
  | k + 1, bs =>
    if bs.isEmpty then bs else BoidSimulation.removeBoids k bs.dropLast

/-- Transcribes `BoidSimulation.updateBoidCount`: reconcile the live collection with
the boid-count target by generating fresh boids or discarding from the
end. -/
def BoidSimulation.updateBoidCount (gen : Nat → Boid) (target : Nat)
    (boids : List Boid) (nextBoidId : Nat) : List Boid × Nat :=
  if target = boids.length then (boids, nextBoidId)
  else if boids.length < target then
    BoidSimulation.addBoids gen (target - boids.length) boids nextBoidId
  else (BoidSimulation.removeBoids (boids.length - target) boids, nextBoidId)

/-- The tick's population-reconciliation step applied to the simulation
state. -/
def BoidSimulation.countStep (gen : Nat → Boid) (s : SimState) : SimState :=
  let r := BoidSimulation.updateBoidCount gen s.simParams.boidCount s.boids
    s.nextBoidId
  { s with boids := r.1, nextBoidId := r.2 }

/-- Transcribes `BoidSimulation.reloadWorld`: look up the newly selected world (may
throw), then atomically install its bounds into `simParams.worldDimens`,
hand the world to the obstacle-avoidance rule, drop every live boid, and
record the now-current world name and rendering mode. -/
def BoidSimulation.reloadWorld (s : SimState) : Except String SimState :=
  match WorldTools.getWorldByName s.worlds s.simParams.worldName with
  | Except.error e => Except.error e
  | Except.ok world =>
    Except.ok { s with
        simParams := { s.simParams with worldDimens := world.get3DBoundaries }
        obstacleRuleWorld := world
        boids := []
        currentWorldName := s.simParams.worldName
        currentRendering := s.simParams.rendering }

/-- The world-change check at the top of `BoidSimulation.update`: reload
when the selected world name or rendering mode differs from the loaded
one. -/
def BoidSimulation.reloadIfNeeded (s : SimState) : Except String SimState :=
  if s.currentWorldName ≠ s.simParams.worldName ∨
      s.currentRendering ≠ s.simParams.rendering
  then BoidSimulation.reloadWorld s
  else Except.ok s

/-- The state of the simulation after the reload check and the population
reconciliation — exactly the state the per-agent updates of the tick then
read. -/
def BoidSimulation.preAgentState (gen : Nat → Boid) (s : SimState) :
    Except String SimState :=
  (BoidSimulation.reloadIfNeeded s).map (BoidSimulation.countStep gen)

/-- The per-agent update pass (`this.boids.map(boid => boid.update(...))`):
boids are mutated in place, so boid i is updated against the collection in
which boids 0..i−1 already moved this tick.  `us i` carries boid i's
Math.random() samples. -/
def BoidSimulation.moveBoidsFrom (rules : List RuleFn) (us : Nat → Vec3)
    (params : SimParams) : Nat → Nat → List Boid → List Boid
  | 0, _, bs => bs
  | fuel + 1, i, bs =>
    if h : i < bs.length then
      BoidSimulation.moveBoidsFrom rules us params fuel (i + 1)
        (bs.set i (Boid.updateAndMove rules
          ⟨BoidSimulation.getBoidNeighbours params.visibilityThreshold bs
            (bs.get ⟨i, h⟩), params⟩
          (us i) (bs.get ⟨i, h⟩)))
    else bs

/-- The agent-update phase applied to the simulation state. -/
def BoidSimulation.moveStep (rules : List RuleFn) (us : Nat → Vec3)
    (s : SimState) : SimState :=
  let newBoids := BoidSimulation.moveBoidsFrom rules us s.simParams
    s.boids.length 0 s.boids
  { s with boids := newBoids }

/-- Transcribes `BoidSimulation.update`, one full tick: reload the world if the
selection changed, reconcile the population, then update every boid. -/
def BoidSimulation.update (gen : Nat → Boid) (rules : List RuleFn)
    (us : Nat → Vec3) (s : SimState) : Except String SimState :=
  (BoidSimulation.preAgentState gen s).map (BoidSimulation.moveStep rules us)

/-- C7: when the selected world (or rendering mode) changed since the
last tick, the state that the tick's agent updates read — after the reload
and the population reconciliation — has its world bounds, its
obstacle-rule world reference (hence the obstacle list), and its loaded
world name all taken from the single world freshly looked up by the
selected name: no mix of old obstacles with new bounds is observable. -/
theorem world_switch_atomic_before_agent_updates (gen : Nat → Boid)
    (s t : SimState)
    (hchange : s.currentWorldName ≠ s.simParams.worldName ∨
      s.currentRendering ≠ s.simParams.rendering)
    (ht : BoidSimulation.preAgentState gen s = Except.ok t) :
    ∀ w, WorldTools.getWorldByName s.worlds s.simParams.worldName
        = Except.ok w →
      t.simParams.worldDimens = w.get3DBoundaries ∧
      t.obstacleRuleWorld = w ∧
      t.obstacleRuleWorld.cylinders = w.cylinders ∧
      t.currentWorldName = s.simParams.worldName ∧
      t.simParams.worldName = s.simParams.worldName := by
  intro w hw
  unfold BoidSimulation.preAgentState BoidSimulation.reloadIfNeeded at ht
  rw [if_pos hchange] at ht
  unfold BoidSimulation.reloadWorld at ht
  rw [hw] at ht
  simp only [Except.map] at ht
  rw [Except.ok.injEq] at ht
  subst ht
  exact ⟨rfl, rfl, rfl, rfl, rfl⟩

/-- The boid generator used by the concrete simulation witnesses: it
stores the requested id (as `new Boid(id, ...)` does) with zeroed
kinematic state. -/
def gen0 : Nat → Boid := fun n => ⟨n, Vec3.zero, Vec3.zero, Vec3.zero, (0, 0)⟩

/-- A state whose loaded world is "Default" while the selected world name
is already "Small World" — the situation right before the switch tick. -/
def switchStartState : SimState :=
  { worlds := [defaultWorld, smallWorld]
    currentWorldName := "Default"
    currentRendering := RenderingMode.Simple
    simParams := { sampleParams with worldName := "Small World", boidCount := 0 }
    boids := []
    nextBoidId := 0
    obstacleRuleWorld := defaultWorld }

/-- The state the agent updates observe after the switch tick's reload and
(empty) reconciliation. -/
def switchedState : SimState :=
  { worlds := [defaultWorld, smallWorld]
    currentWorldName := "Small World"
    currentRendering := RenderingMode.Simple
    simParams := { sampleParams with
        worldName := "Small World"
        boidCount := 0
        worldDimens := smallWorld.get3DBoundaries }
    boids := []
    nextBoidId := 0
    obstacleRuleWorld := smallWorld }

/-- C7 witness: a concrete world switch from "Default" to "Small World". -/
theorem world_switch_atomic_before_agent_updates_witness :
    (switchStartState.currentWorldName ≠ switchStartState.simParams.worldName ∨
      switchStartState.currentRendering ≠ switchStartState.simParams.rendering) ∧
    (switchedState.simParams.worldDimens = smallWorld.get3DBoundaries ∧
      switchedState.obstacleRuleWorld = smallWorld ∧
      switchedState.obstacleRuleWorld.cylinders = smallWorld.cylinders ∧
      switchedState.currentWorldName = switchStartState.simParams.worldName ∧
      switchedState.simParams.worldName = switchStartState.simParams.worldName) := by
  have hchange : switchStartState.currentWorldName
      ≠ switchStartState.simParams.worldName ∨
      switchStartState.currentRendering
      ≠ switchStartState.simParams.rendering :=
    Or.inl (by decide)
  exact ⟨hchange, world_switch_atomic_before_agent_updates gen0
    switchStartState switchedState hchange rfl smallWorld rfl⟩

/-- The removal loop equals truncation: popping k boids from the end of a
collection of at least k leaves exactly the first length−k boids. -/
theorem removeBoids_eq_take (k : Nat) (bs : List Boid) (h : k ≤ bs.length) :
    BoidSimulation.removeBoids k bs = bs.take (bs.length - k) := by
  induction k generalizing bs with
  | zero => simp [BoidSimulation.removeBoids]
  | succ n ih =>
    have hne : bs ≠ [] := by
      intro he
      subst he
      simp at h
    simp only [BoidSimulation.removeBoids]
    rw [if_neg (by simp [List.isEmpty_iff]; exact hne)]
    rw [ih bs.dropLast (by rw [List.length_dropLast]; omega)]
    rw [List.length_dropLast, List.dropLast_eq_take, List.take_take]
    rw [show min (bs.length - 1 - n) (bs.length - 1) = bs.length - (n + 1)
      from by omega]

/-- C8: lowering the boid-count target below the current population
removes exactly the difference, always from the end — the result is the
take of the first `target` boids, each with identity and state untouched —
and popping from an empty collection is a no-op. -/
theorem updateBoidCount_removes_from_end (gen : Nat → Boid) (target : Nat)
    (boids : List Boid) (nextBoidId : Nat) (h : target < boids.length) :
    BoidSimulation.updateBoidCount gen target boids nextBoidId
      = (boids.take target, nextBoidId) ∧
    ∀ k, BoidSimulation.removeBoids k ([] : List Boid) = [] := by
  constructor
  · unfold BoidSimulation.updateBoidCount
    rw [if_neg (by omega), if_neg (by omega)]
    rw [removeBoids_eq_take (boids.length - target) boids (by omega)]
    rw [show boids.length - (boids.length - target) = target from by omega]
  · intro k
    cases k with
    | zero => rfl
    | succ n => rfl

/-- A concrete population of three boids. -/
def flockOfThree : List Boid := [gen0 10, gen0 11, gen0 12]

/-- C8 witness: lowering the target from 3 to 2 keeps exactly the first
two boids and the id counter, and popping from an empty collection is a
no-op. -/
theorem updateBoidCount_removes_from_end_witness :
    2 < flockOfThree.length ∧
    (BoidSimulation.updateBoidCount gen0 2 flockOfThree 7
        = (flockOfThree.take 2, 7) ∧
      ∀ k, BoidSimulation.removeBoids k ([] : List Boid) = []) := by
  have h : 2 < flockOfThree.length := by simp [flockOfThree]
  exact ⟨h, updateBoidCount_removes_from_end gen0 2 flockOfThree 7 h⟩

/-- The generation loop appends exactly the boids generated at the k
consecutive fresh ids. -/
theorem addBoids_spec (gen : Nat → Boid) (k : Nat) :
    ∀ (bs : List Boid) (nid : Nat),
      BoidSimulation.addBoids gen k bs nid
        = (bs ++ (List.range' nid k).map gen, nid + k) := by
  induction k with
  | zero =>
    intro bs nid
    simp [BoidSimulation.addBoids]
  | succ n ih =>
    intro bs nid
    simp only [BoidSimulation.addBoids]
    rw [ih (bs ++ [gen nid]) (nid + 1)]
    rw [Prod.mk.injEq]
    constructor
    · rw [List.append_assoc, List.singleton_append]
      rw [show List.range' nid (n + 1) = nid :: List.range' (nid + 1) n from rfl]
      rw [List.map_cons]
    · omega

/-- Reconciliation from an empty collection generates the full target
population at consecutive fresh ids. -/
theorem updateBoidCount_from_empty (gen : Nat → Boid) (target nid : Nat) :
    BoidSimulation.updateBoidCount gen target ([] : List Boid) nid
      = ((List.range' nid target).map gen, nid + target) := by
  unfold BoidSimulation.updateBoidCount
  by_cases h0 : target = 0
  · subst h0
    simp [List.range']
  · rw [if_neg (by simpa using h0), if_pos (by simpa using Nat.pos_of_ne_zero h0)]
    rw [addBoids_spec]
    simp

/-- C10: a world reload empties the live collection (keeping the id
counter), and the next tick's reconciliation rebuilds the whole flock from
scratch through the generator at consecutive fresh ids — every id at least
the pre-switch counter, so no prior agent state survives.  `hgen` is the
generator contract that `new Boid(id, ...)` stores the id it is given. -/
theorem reloadWorld_clears_population (gen : Nat → Boid) (s t : SimState)
    (hre : BoidSimulation.reloadWorld s = Except.ok t)
    (hgen : ∀ n, (gen n).id = n) :
    t.boids = [] ∧
    t.nextBoidId = s.nextBoidId ∧
    (BoidSimulation.countStep gen t).boids
      = (List.range' t.nextBoidId t.simParams.boidCount).map gen ∧
    ∀ b ∈ (BoidSimulation.countStep gen t).boids, s.nextBoidId ≤ b.id := by
  obtain ⟨w, hw⟩ : ∃ w, WorldTools.getWorldByName s.worlds
      s.simParams.worldName = Except.ok w := by
    unfold BoidSimulation.reloadWorld at hre
    cases hlook : WorldTools.getWorldByName s.worlds s.simParams.worldName with
    | error e =>
      rw [hlook] at hre
      exact absurd hre (by simp)
    | ok w => exact ⟨w, rfl⟩
  unfold BoidSimulation.reloadWorld at hre
  rw [hw] at hre
  rw [Except.ok.injEq] at hre
  have h1 : t.boids = [] := by rw [← hre]
  have h2 : t.nextBoidId = s.nextBoidId := by rw [← hre]
  have hc : (BoidSimulation.countStep gen t).boids
      = (List.range' t.nextBoidId t.simParams.boidCount).map gen := by
    unfold BoidSimulation.countStep
    dsimp only
    rw [h1, updateBoidCount_from_empty]
  refine ⟨h1, h2, hc, ?_⟩
  intro b hb
  rw [hc] at hb
  obtain ⟨m, hm, rfl⟩ := List.mem_map.mp hb
  rw [hgen m]
  have hle : t.nextBoidId ≤ m := (List.mem_range'_1.mp hm).1
  rw [← h2]
  exact hle

/-- A state about to reload "Small World", with one live boid and an id
counter at 5. -/
def resetStartState : SimState :=
  { worlds := [smallWorld]
    currentWorldName := "Small World"
    currentRendering := RenderingMode.Simple
    simParams := { sampleParams with worldName := "Small World", boidCount := 2 }
    boids := [gen0 0]
    nextBoidId := 5
    obstacleRuleWorld := smallWorld }

/-- The same state right after `reloadWorld`. -/
def resetReloadedState : SimState :=
  { worlds := [smallWorld]
    currentWorldName := "Small World"
    currentRendering := RenderingMode.Simple
    simParams := { sampleParams with
        worldName := "Small World"
        boidCount := 2
        worldDimens := smallWorld.get3DBoundaries }
    boids := []
    nextBoidId := 5
    obstacleRuleWorld := smallWorld }

/-- C10 witness: the concrete reload drops the single live boid and the
next reconciliation generates ids 5 and 6, both ≥ the old counter. -/
theorem reloadWorld_clears_population_witness :
    resetReloadedState.boids = [] ∧
    resetReloadedState.nextBoidId = resetStartState.nextBoidId ∧
    (BoidSimulation.countStep gen0 resetReloadedState).boids
      = (List.range' resetReloadedState.nextBoidId
          resetReloadedState.simParams.boidCount).map gen0 ∧
    ∀ b ∈ (BoidSimulation.countStep gen0 resetReloadedState).boids,
      resetStartState.nextBoidId ≤ b.id :=
  reloadWorld_clears_population gen0 resetStartState resetReloadedState rfl
    (fun _ => rfl)

/-- C3 witness at the concrete sample tick. -/
theorem tick_speed_bounded_by_maxSpeed_plus_bias_witness :
    (0:ℝ) ≤ sampleArgs.simParams.maxSpeed ∧
    (Boid.updateAndMove [] sampleArgs sampleU sampleBoid).velocity.length ≤
      sampleArgs.simParams.maxSpeed
        + (Boid.updateAndMove [] sampleArgs sampleU sampleBoid).randomBias.length :=
  ⟨by norm_num [sampleArgs, sampleParams],
    tick_speed_bounded_by_maxSpeed_plus_bias [] sampleArgs sampleU sampleBoid
      (by norm_num [sampleArgs, sampleParams])⟩

end
